import Mathlib

/-
Verification of the locale manager module (apprise/AppriseLocale.py).

Shallow embedding conventions:
  * Python strings are Lean `String`; a Python value that may be `None` is an
    `Option`.  Python string slicing `s[0:2]` is `List.take 2` on `s.data`, and
    `str.lower` is mapped `Char.toLower` (the embedding covers ASCII data,
    which is all the locale codes involved use).
  * The gettext subsystem is external: `gettext.translation(DOMAIN,
    localedir=LOCALE_DIR, languages=[k])` is an abstract total function
    `T : Option String → Option α`; `T k = none` models the IOError raised
    when the catalog resource for key `k` cannot be found or opened, and
    `T k = some c` models a successfully loaded catalog object `c`.
  * The globally installed catalog (what `<catalog>.install()` sets) is a
    value of type `Option α`; `none` stands for whatever was installed at
    module import time, before any instance touched it.
  * The operating system is a record `OSEnv`: `os.environ.get`, the Windows
    UI-language lookup (outer `none` = no `ctypes.windll` attribute, inner
    `none` = the lookup raised TypeError/KeyError), and `locale.getlocale()`
    (`Except.error ()` = the TypeError branch that logs a warning).
-/

/-- Python exception classes that appear in the module paths we model. -/
inductive PyExc
  | ioError
  | keyError
  | runtimeError
  | nameError
  | other
deriving DecidableEq

/-- `s[0:2].lower()` on a Python string. -/
def pyTake2Lower (s : String) : String :=
  String.mk ((s.data.take 2).map Char.toLower)

/-- Characters matched by the regex class `\s` (ASCII range). -/
def isPySpace (c : Char) : Bool :=
  c = ' ' || c = '\t' || c = '\n' || c = '\x0b' || c = '\x0c' || c = '\r'

/--
The `lang` capture group of the compiled pattern
`^\s*(?P<lang>[a-z]{2})([_:]((?P<country>[a-z]{2}))?(\.(?P<enc>[a-z0-9]+))?|.+)?`
under `re.IGNORECASE`, applied with `re.match` (anchored at the start).
The pattern succeeds exactly when, after the maximal run of leading
whitespace, two alphabetic characters follow (everything after them is
absorbed by the optional tail, whose `.+` alternative matches anything), and
the group then holds those two characters.
-/
def regexLangGroup : List Char → Option (Char × Char)
  | [] => none
  | c :: rest =>
    if isPySpace c then regexLangGroup rest
    else
      match rest with
      | [] => none
      | d :: _ => if c.isAlpha && d.isAlpha then some (c, d) else none

/-- Operating-system inputs consumed by `AppriseLocale.detect_language`. -/
structure OSEnv where
  env : String → Option String
  windows : Option (Option String)
  getlocale : Except Unit (Option String)

/-- The fixed probe order of the environment-variable loop. -/
def localeVars : List String := ["LC_ALL", "LC_CTYPE", "LANG", "LANGUAGE"]

/--
One iteration of the loop body: the variable contributes a code when it is
present with a truthy (non-empty) value whose regex match has a `lang`
group; the contributed code is the group lowercased.
-/
def varMatch (os : OSEnv) (v : String) : Option String :=
  match os.env v with
  | none => none
  | some s =>
    if s.data.isEmpty then none
    else
      match regexLangGroup s.data with
      | some (c, d) => some (String.mk [c.toLower, d.toLower])
      | none => none

/-- The environment-variable loop over an explicit variable list. -/
def envProbeList (os : OSEnv) : List String → Option String
  | [] => none
  | v :: vs =>
    match varMatch os v with
    | some code => some code
    | none => envProbeList os vs

/-- The environment-variable loop of `detect_language`. -/
def envProbe (os : OSEnv) : Option String :=
  envProbeList os localeVars

/--
`AppriseLocale.detect_language(lang, detect_fallback)`.
`lang = some s` is the case `isinstance(lang, str)`; `lang = none` covers a
`None` (or any non-string) argument.  For a string argument the function
returns `None` when the string is falsy and `lang[0:2].lower()` otherwise,
without consulting the regex.  For a non-string argument with fallback
enabled it probes the environment variables, then the Windows UI language
(whose success branch returns `lang[0:2].lower()` with no truthiness check),
then `locale.getlocale()[0]` (a TypeError there is logged and yields `None`;
a falsy result yields `None`).
-/
def detect_language (os : OSEnv) (lang : Option String) (detect_fallback : Bool) :
    Option String :=
  match lang with
  | some s => if s.data.isEmpty then none else some (pyTake2Lower s)
  | none =>
    if detect_fallback = false then none
    else
      match envProbe os with
      | some code => some code
      | none =>
        match os.windows with
        | some (some w) => some (pyTake2Lower w)
        | _ =>
          match os.getlocale with
          | Except.error _ => none
          | Except.ok none => none
          | Except.ok (some l) => if l.data.isEmpty then none else some (pyTake2Lower l)

/-- An `OSEnv` with nothing set: no variables, not Windows, no locale. -/
def osEmpty : OSEnv :=
  ⟨fun _ => none, none, Except.ok none⟩

/--
An `AppriseLocale` instance: the detected default language `self.lang` and
the catalog cache `self._gtobjs`, a Python dict embedded as an association
list with pairwise-distinct keys in insertion order.  Keys have type
`Option String` because `lang_at` can cache under key `None`.
-/
structure AppriseLocale (α : Type) where
  lang : Option String
  gtobjs : List (Option String × α)
deriving DecidableEq

/-- Dict lookup: `d[k]` as an `Option` (`none` = KeyError). -/
def dlookup {α : Type} (k : Option String) : List (Option String × α) → Option α
  | [] => none
  | (k', v) :: t => if k' = k then some v else dlookup k t

/-- Dict membership test `k in d`. -/
def dmem {α : Type} (k : Option String) (l : List (Option String × α)) : Bool :=
  (dlookup k l).isSome

/-- Dict assignment `d[k] = v` (replace in place, or append a new key). -/
def dinsert {α : Type} (k : Option String) (v : α) :
    List (Option String × α) → List (Option String × α)
  | [] => [(k, v)]
  | (k', v') :: t => if k' = k then (k, v) :: t else (k', v') :: dinsert k v t

theorem dlookup_dinsert {α : Type} (k k2 : Option String) (v : α)
    (l : List (Option String × α)) :
    dlookup k (dinsert k2 v l) = if k2 = k then some v else dlookup k l := by
  induction l with
  | nil => simp [dinsert, dlookup]
  | cons hd tl ih =>
    obtain ⟨k', v'⟩ := hd
    by_cases h1 : k' = k2
    · subst h1
      by_cases h2 : k' = k <;> simp [dinsert, dlookup, h2]
    · by_cases h2 : k' = k
      · subst h2
        have h3 : ¬k2 = k' := fun h => h1 h.symm
        simp [dinsert, dlookup, h1, h3]
      · simp [dinsert, dlookup, h1, h2, ih]

/--
`AppriseLocale.__init__(language)` together with its effect on the globally
installed catalog.  `gtLoaded` is the module flag `GETTEXT_LOADED`, `T` is
the external `gettext.translation` facility keyed by the single entry of its
`languages` argument, and `installed` is the global catalog before the call.
The constructor detects `self.lang` with fallback enabled, and, when gettext
is loaded and the detection result is truthy, tries to load and install the
catalog for `self.lang`; an IOError from the load (modelled by `T` returning
`none`) is caught and ignored, so the constructor itself never raises.
-/
def appriseLocale_init {α : Type} (os : OSEnv) (gtLoaded : Bool)
    (T : Option String → Option α) (language : Option String)
    (installed : Option α) : AppriseLocale α × Option α :=
  if gtLoaded = false then (⟨detect_language os language true, []⟩, installed)
  else
    match detect_language os language true with
    | none => (⟨none, []⟩, installed)
    | some l =>
      if l.data.isEmpty then (⟨some l, []⟩, installed)
      else
        match T (some l) with
        | some c => (⟨some l, [(some l, c)]⟩, some c)
        | none => (⟨some l, []⟩, installed)

/--
`AppriseLocale.__getstate__`: a copy of the instance dict with the
unpicklable `_gtobjs` entry removed, which leaves exactly the `lang` field.
-/
def appriseLocale_getstate {α : Type} (inst : AppriseLocale α) : Option String :=
  inst.lang

/--
`AppriseLocale.__setstate__`: restore the pickled dict and reset `_gtobjs`
to a fresh empty dict.
-/
def appriseLocale_setstate {α : Type} (state : Option String) : AppriseLocale α :=
  ⟨state, []⟩

/-- A pickle round-trip: `__getstate__` followed by `__setstate__`. -/
def pickle_roundtrip {α : Type} (inst : AppriseLocale α) : AppriseLocale α :=
  appriseLocale_setstate (appriseLocale_getstate inst)

/-- `LazyTranslation`: stores its text verbatim at construction. -/
structure LazyTranslation where
  text : String
deriving DecidableEq

/-- `gettext_lazy(text)`. -/
def gettext_lazy (text : String) : LazyTranslation :=
  ⟨text⟩

/--
`LazyTranslation.__str__`, which evaluates `gettext.gettext(self.text)`.
`gtMod = some g` models a module namespace in which `import gettext`
succeeded and `g` is the `gettext.gettext` function; `gtMod = none` models
the ImportError branch, in which the module-level name `gettext` was never
bound, so the attribute access raises NameError.
-/
def LazyTranslation.str (gtMod : Option (String → String))
    (lt : LazyTranslation) : Except PyExc String :=
  match gtMod with
  | none => Except.error PyExc.nameError
  | some g => Except.ok (g lt.text)

/--
The `_` installed into builtins by the ImportError branch of the module
prologue: the identity on its input text.
-/
def fallback_underscore (text : String) : String :=
  text

/--
The position of the generator yield at which the body of a `with
... .lang_at(...)` block runs: `inTry` for the yield inside the `try`
block, `inExcept` for the yield inside the `except (IOError, KeyError)`
handler (reached when `gettext.translation` raised at entry).
-/
inductive YieldPos
  | inTry
  | inExcept
deriving DecidableEq

/--
The `finally` clause of `lang_at`: when the tidied `lang` differs from
`self.lang` and is a key of `self._gtobjs`, install `self._gtobjs[self.lang]`
— an access that raises KeyError when `self.lang` is not cached.  Returns
(exception raised by the clause, new installed catalog, install log).
-/
def finallyClause {α : Type} (lang selfLang : Option String)
    (gtobjs : List (Option String × α)) (installed : Option α) :
    Option PyExc × Option α × List α :=
  if lang = selfLang then (none, installed, [])
  else if dmem lang gtobjs then
    match dlookup selfLang gtobjs with
    | some c => (none, some c, [c])
    | none => (some PyExc.keyError, installed, [])
  else (none, installed, [])

/--
Exit of the `with` block under `contextlib.contextmanager` semantics, given
the yield position reached at entry, the dict and installed catalog as they
stand when the body finishes, and the exception (if any) the body raised:
  * body completed: the generator is resumed, the `finally` clause runs, and
    any exception it raises propagates to the caller;
  * body raised IOError or KeyError while suspended at the yield inside
    `try`: the `except` clause catches it and yields a second time, so
    `__exit__` raises `RuntimeError("generator didn't stop after throw()")`;
    the `finally` clause still runs when the interpreter then closes the
    abandoned suspended generator (CPython reference counting closes it as
    the `with` statement unwinds), and an exception it raises there is
    written to stderr and suppressed;
  * body raised anything else (or raised while suspended at the yield inside
    `except`): the exception passes through, the `finally` clause runs, and
    an exception raised by the clause replaces the body exception.
Returns (exception propagating from the block, installed catalog, install
log of the exit path).
-/
def exitScope {α : Type} (pos : YieldPos) (lang selfLang : Option String)
    (gtobjs : List (Option String × α)) (installed : Option α)
    (bodyErr : Option PyExc) : Option PyExc × Option α × List α :=
  let fin := finallyClause lang selfLang gtobjs installed
  match bodyErr with
  | none => fin
  | some e =>
    if pos = YieldPos.inTry && (e = PyExc.ioError || e = PyExc.keyError) then
      (some PyExc.runtimeError, fin.2.1, fin.2.2)
    else
      match fin.1 with
      | some k => (some k, fin.2.1, fin.2.2)
      | none => (some e, fin.2.1, fin.2.2)

/--
The observable outcome of one `with instance.lang_at(rawLang)` block:
`err` is the exception propagating out of the `with` statement (`none` for a
clean exit; equal to the body exception when the machinery adds nothing),
`inst` and `installed` are the instance and the globally installed catalog
afterwards, `installs` logs every `.install()` call that executed (entry and
exit), and `loads` logs the `languages` key of every `gettext.translation`
call made.
-/
structure LangAtResult (α : Type) where
  err : Option PyExc
  inst : AppriseLocale α
  installed : Option α
  installs : List α
  loads : List (Option String)
deriving DecidableEq

/--
The body of `lang_at` once the requested language has been tidied by
`detect_language(lang, detect_fallback=False)`:
  * if the tidied `lang` is cached, install its catalog unless it equals
    `self.lang`, and yield inside `try`;
  * otherwise call `gettext.translation` with `languages=[self.lang]` (the
    default language key, not the requested one); on success store the result
    under the requested key and install it, yielding inside `try`; on IOError
    fall to the `except` clause and yield there;
  * finally, exit as `exitScope` describes.
-/
def langAtCore {α : Type} (T : Option String → Option α) (inst : AppriseLocale α)
    (installed : Option α) (lang : Option String) (bodyErr : Option PyExc) :
    LangAtResult α :=
  match dlookup lang inst.gtobjs with
  | some c =>
    if lang = inst.lang then
      let ex := exitScope YieldPos.inTry lang inst.lang inst.gtobjs installed bodyErr
      ⟨ex.1, inst, ex.2.1, ex.2.2, []⟩
    else
      let ex := exitScope YieldPos.inTry lang inst.lang inst.gtobjs (some c) bodyErr
      ⟨ex.1, inst, ex.2.1, c :: ex.2.2, []⟩
  | none =>
    match T inst.lang with
    | some c =>
      let ex := exitScope YieldPos.inTry lang inst.lang (dinsert lang c inst.gtobjs)
        (some c) bodyErr
      ⟨ex.1, ⟨inst.lang, dinsert lang c inst.gtobjs⟩, ex.2.1, c :: ex.2.2,
        [inst.lang]⟩
    | none =>
      let ex := exitScope YieldPos.inExcept lang inst.lang inst.gtobjs installed bodyErr
      ⟨ex.1, inst, ex.2.1, ex.2.2, [inst.lang]⟩

/--
`AppriseLocale.lang_at(lang)` used as `with inst.lang_at(rawLang): body`,
where the body completes normally when `bodyErr = none` and raises `e` when
`bodyErr = some e`.  When `GETTEXT_LOADED` is false the context manager
only yields: nothing changes and the body exception (if any) propagates.
Otherwise the requested language is tidied with
`detect_language(lang, detect_fallback=False)` and `langAtCore` runs.
-/
def lang_at {α : Type} (os : OSEnv) (gtLoaded : Bool)
    (T : Option String → Option α) (inst : AppriseLocale α)
    (installed : Option α) (rawLang : Option String) (bodyErr : Option PyExc) :
    LangAtResult α :=
  if gtLoaded then
    langAtCore T inst installed (detect_language os rawLang false) bodyErr
  else ⟨bodyErr, inst, installed, [], []⟩

/--
A sequence of `with inst.lang_at(raw): body` blocks run one after the other
on the same instance and global catalog; each list entry carries the raw
requested language and the exception the body raises (`none` = completes).
-/
def run_lang_ats {α : Type} (os : OSEnv) (gtLoaded : Bool)
    (T : Option String → Option α) :
    List (Option String × Option PyExc) → AppriseLocale α × Option α →
      AppriseLocale α × Option α
  | [], st => st
  | (raw, berr) :: ops, (inst, installed) =>
    run_lang_ats os gtLoaded T ops
      ((lang_at os gtLoaded T inst installed raw berr).inst,
       (lang_at os gtLoaded T inst installed raw berr).installed)

/--
Claim C10: a serialization round-trip through `__getstate__` and
`__setstate__` preserves the `lang` field and resets the catalog cache
`_gtobjs` to the empty mapping, whatever was cached before.
-/
theorem claim_C10 {α : Type} (inst : AppriseLocale α) :
    (pickle_roundtrip inst).lang = inst.lang ∧ (pickle_roundtrip inst).gtobjs = [] :=
  ⟨rfl, rfl⟩

/--
Claim C4 (code bug): when gettext is not importable the builtins fallback
`_` does return its input unchanged, but rendering a `LazyTranslation` to a
string raises NameError, because `LazyTranslation.__str__` evaluates
`gettext.gettext(self.text)` and the module-level name `gettext` was never
bound by the failed import.  The claim (a complete no-op that returns the
input text unchanged) therefore fails at the lazy-rendering operation.
-/
theorem claim_C4_bug :
    fallback_underscore "hello" = "hello" ∧
    LazyTranslation.str none (gettext_lazy "hello") = Except.error PyExc.nameError :=
  ⟨rfl, rfl⟩

/--
Claim C2 counterexample: the supplied string "1234" has no leading 2-letter
alphabetic code, yet `detect_language` returns `some "12"`, not `none` — for
a string argument the function slices the first two characters without any
regex validation.
-/
theorem claim_C2_counterexample :
    detect_language osEmpty (some "1234") true ≠ none ∧
    detect_language osEmpty (some "1234") true = some "12" := by
  decide

/--
Claim C2 (amended): for a supplied raw language string no format validation
occurs: `detect_language` returns `none` exactly when the string is empty
(falsy), and otherwise returns the first up-to-two characters lowercased,
whether or not they form a 2-letter alphabetic code.
-/
theorem claim_C2_amended (os : OSEnv) (fb : Bool) (s : String) :
    (s.data = [] → detect_language os (some s) fb = none) ∧
    (s.data ≠ [] → detect_language os (some s) fb = some (pyTake2Lower s)) := by
  constructor
  · intro h
    simp [detect_language, h]
  · intro h
    simp [detect_language, h]

/--
Claim C2 witness: the empty string yields `none`; the malformed string
"1234" yields `some "12"`.
-/
theorem claim_C2_witness :
    detect_language osEmpty (some "") true = none ∧
    detect_language osEmpty (some "1234") true = some "12" :=
  ⟨(claim_C2_amended osEmpty true "").1 (by decide),
   ((claim_C2_amended osEmpty true "1234").2 (by decide)).trans (by decide)⟩

/--
Claim C9: for every well-formed supplied locale string of one of the forms
`xx_YY.enc`, `xx:YY` or bare `xx`, with `xx` a 2-letter alphabetic code in
either case, `detect_language` returns the lowercase 2-letter prefix `xx`.
-/
theorem claim_C9 (os : OSEnv) (fb : Bool) (x1 x2 : Char) (s : String)
    (_hx1 : x1.isAlpha = true) (_hx2 : x2.isAlpha = true)
    (hs : s.data = [x1, x2]
        ∨ (∃ y1 y2 enc, s.data = x1 :: x2 :: '_' :: y1 :: y2 :: '.' :: enc)
        ∨ (∃ y1 y2, s.data = x1 :: x2 :: ':' :: [y1, y2])) :
    detect_language os (some s) fb = some (String.mk [x1.toLower, x2.toLower]) := by
  have hne : s.data.isEmpty = false ∧ s.data.take 2 = [x1, x2] := by
    rcases hs with h | ⟨y1, y2, enc, h⟩ | ⟨y1, y2, h⟩ <;> simp [h]
  simp [detect_language, hne.1, pyTake2Lower, hne.2]

/--
Claim C9 witness: the three spec shapes at concrete inputs, including a
region/encoding suffix and an uppercase code.
-/
theorem claim_C9_witness :
    detect_language osEmpty (some "fr_FR.UTF-8") true = some "fr" ∧
    detect_language osEmpty (some "de:AT") true = some "de" ∧
    detect_language osEmpty (some "EN") true = some "en" :=
  ⟨(claim_C9 osEmpty true 'f' 'r' "fr_FR.UTF-8" (by decide) (by decide)
      (Or.inr (Or.inl ⟨'F', 'R', ['U', 'T', 'F', '-', '8'], by decide⟩))).trans
      (by decide),
   (claim_C9 osEmpty true 'd' 'e' "de:AT" (by decide) (by decide)
      (Or.inr (Or.inr ⟨'A', 'T', by decide⟩))).trans (by decide),
   (claim_C9 osEmpty true 'E' 'N' "EN" (by decide) (by decide)
      (Or.inl (by decide))).trans (by decide)⟩

theorem envProbeList_append (os : OSEnv) (post : List String) (v code : String)
    (hv : varMatch os v = some code) :
    ∀ pre : List String, (∀ w ∈ pre, varMatch os w = none) →
      envProbeList os (pre ++ v :: post) = some code := by
  intro pre
  induction pre with
  | nil =>
    intro _
    simp [envProbeList, hv]
  | cons w ws ih =>
    intro hpre
    have hw : varMatch os w = none := hpre w (by simp)
    have hws : ∀ x ∈ ws, varMatch os x = none := fun x hx => hpre x (by simp [hx])
    simp [envProbeList, hw, ih hws]

/--
Claim C5: with no raw language supplied and fallback enabled,
`detect_language` probes `LC_ALL`, `LC_CTYPE`, `LANG`, `LANGUAGE` in that
fixed order and returns the lowercased 2-letter `lang` group of the first
variable that is present and matches the `lang[_country][.encoding]`
pattern (`varMatch`); earlier variables that are absent, empty or
unparseable are skipped.
-/
theorem claim_C5 (os : OSEnv) (pre post : List String) (v code : String)
    (hsplit : localeVars = pre ++ v :: post)
    (hpre : ∀ w ∈ pre, varMatch os w = none)
    (hv : varMatch os v = some code) :
    detect_language os none true = some code := by
  have hp : envProbe os = some code := by
    rw [envProbe, hsplit]
    exact envProbeList_append os post v code hv pre hpre
  simp [detect_language, hp]

/-- An environment with only `LC_ALL=fr_FR.UTF-8` set. -/
def osLCAllFr : OSEnv :=
  ⟨fun v => if v = "LC_ALL" then some "fr_FR.UTF-8" else none, none, Except.ok none⟩

/-- An environment with only `LANGUAGE=de_DE` set. -/
def osLanguageDe : OSEnv :=
  ⟨fun v => if v = "LANGUAGE" then some "de_DE" else none, none, Except.ok none⟩

/--
Claim C5 witness: with `LC_ALL=fr_FR.UTF-8` set detection returns "fr";
with only `LANGUAGE=de_DE` set it returns "de".
-/
theorem claim_C5_witness :
    detect_language osLCAllFr none true = some "fr" ∧
    detect_language osLanguageDe none true = some "de" :=
  ⟨claim_C5 osLCAllFr [] ["LC_CTYPE", "LANG", "LANGUAGE"] "LC_ALL" "fr"
      (by decide) (by decide) (by decide),
   claim_C5 osLanguageDe ["LC_ALL", "LC_CTYPE", "LANG"] [] "LANGUAGE" "de"
      (by decide) (by decide) (by decide)⟩

/--
Claim C7: when the catalog resource for the detected language cannot be
found or opened (`T` returns `none`, the IOError case), the constructor
absorbs the failure: it completes with the detection result still stored in
`lang`, an empty catalog cache, and the globally installed catalog
untouched.  (The try/except in `__init__` catches IOError, the only
exception the load can raise, so construction never raises.)
-/
theorem claim_C7 {α : Type} (os : OSEnv) (gtLoaded : Bool)
    (T : Option String → Option α) (language : Option String) (installed : Option α)
    (h : T (detect_language os language true) = none) :
    appriseLocale_init os gtLoaded T language installed
      = (⟨detect_language os language true, []⟩, installed) := by
  unfold appriseLocale_init
  cases gtLoaded with
  | false => simp
  | true =>
    cases hd : detect_language os language true with
    | none => simp [hd]
    | some l =>
      rw [hd] at h
      by_cases he : l.data.isEmpty = true <;> simp [hd, he, h]

/--
Claim C7 witness: a detected language "en" (from the supplied "en_US")
whose catalog load fails leaves an instance with `lang = some "en"`, an
empty cache, and the installed catalog unchanged.
-/
theorem claim_C7_witness :
    appriseLocale_init osEmpty true (fun _ => (none : Option Nat)) (some "en_US") none
      = (⟨some "en", []⟩, none) :=
  (claim_C7 osEmpty true (fun _ => (none : Option Nat)) (some "en_US") none rfl).trans
    (by decide)

theorem exitScope_of_fin {α : Type} (pos : YieldPos) (lang selfLang : Option String)
    (gtobjs : List (Option String × α)) (installed : Option α)
    (bodyErr : Option PyExc) (inst2 : Option α) (log : List α)
    (hio : bodyErr ≠ some PyExc.ioError) (hkey : bodyErr ≠ some PyExc.keyError)
    (hfin : finallyClause lang selfLang gtobjs installed = (none, inst2, log)) :
    exitScope pos lang selfLang gtobjs installed bodyErr = (bodyErr, inst2, log) := by
  cases bodyErr with
  | none => simp [exitScope, hfin]
  | some e =>
    have he1 : e ≠ PyExc.ioError := fun h => hio (by rw [h])
    have he2 : e ≠ PyExc.keyError := fun h => hkey (by rw [h])
    simp [exitScope, hfin, he1, he2]

theorem langAtCore_frame {α : Type} (T : Option String → Option α)
    (inst : AppriseLocale α) (c0 : α) (lang : Option String) (bodyErr : Option PyExc)
    (hcache : dlookup inst.lang inst.gtobjs = some c0)
    (hio : bodyErr ≠ some PyExc.ioError) (hkey : bodyErr ≠ some PyExc.keyError) :
    (langAtCore T inst (some c0) lang bodyErr).installed = some c0 ∧
    (langAtCore T inst (some c0) lang bodyErr).err = bodyErr := by
  cases hd : dlookup lang inst.gtobjs with
  | some c =>
    by_cases hl : lang = inst.lang
    · have hfin : finallyClause lang inst.lang inst.gtobjs (some c0)
          = (none, some c0, []) := by
        rw [hl]
        simp [finallyClause]
      have hex := exitScope_of_fin YieldPos.inTry lang inst.lang inst.gtobjs
        (some c0) bodyErr (some c0) [] hio hkey hfin
      rw [hl] at hex
      simp only [langAtCore, hd]
      simp [hl, hex]
    · have hmem : dmem lang inst.gtobjs = true := by simp [dmem, hd]
      have hfin : finallyClause lang inst.lang inst.gtobjs (some c)
          = (none, some c0, [c0]) := by
        simp [finallyClause, hl, hmem, hcache]
      have hex := exitScope_of_fin YieldPos.inTry lang inst.lang inst.gtobjs
        (some c) bodyErr (some c0) [c0] hio hkey hfin
      simp only [langAtCore, hd]
      simp [hl, hex]
  | none =>
    have hl : lang ≠ inst.lang := by
      intro h
      rw [h, hcache] at hd
      exact Option.noConfusion hd
    cases hT : T inst.lang with
    | some c =>
      have hmem : dmem lang (dinsert lang c inst.gtobjs) = true := by
        simp [dmem, dlookup_dinsert]
      have hself : dlookup inst.lang (dinsert lang c inst.gtobjs) = some c0 := by
        rw [dlookup_dinsert]
        simp [hl, hcache]
      have hfin : finallyClause lang inst.lang (dinsert lang c inst.gtobjs) (some c)
          = (none, some c0, [c0]) := by
        simp [finallyClause, hl, hmem, hself]
      have hex := exitScope_of_fin YieldPos.inTry lang inst.lang
        (dinsert lang c inst.gtobjs) (some c) bodyErr (some c0) [c0] hio hkey hfin
      simp [langAtCore, hd, hT, hex]
    | none =>
      have hmem : dmem lang inst.gtobjs = false := by simp [dmem, hd]
      have hfin : finallyClause lang inst.lang inst.gtobjs (some c0)
          = (none, some c0, []) := by
        simp [finallyClause, hl, hmem]
      have hex := exitScope_of_fin YieldPos.inExcept lang inst.lang inst.gtobjs
        (some c0) bodyErr (some c0) [] hio hkey hfin
      simp [langAtCore, hd, hT, hex]

/--
Claim C1 counterexample: after a pickle round-trip empties the catalog
cache of an instance whose default language is "en" (for which the catalog
loads), entering `lang_at("fr")` caches and installs a catalog under key
"fr"; on exit the restore step evaluates `self._gtobjs[self.lang]` with
"en" absent from the cache, so the exit path raises KeyError to the caller
(the body completed normally), and the installed catalog is left changed
rather than restored to its pre-entry value (`none`, the module-import
default).
-/
theorem claim_C1_counterexample :
    (lang_at osEmpty true (fun k => if k = some "en" then some 0 else none)
        (pickle_roundtrip (⟨some "en", [(some "en", 0)]⟩ : AppriseLocale Nat))
        none (some "fr") none).err = some PyExc.keyError ∧
    (lang_at osEmpty true (fun k => if k = some "en" then some 0 else none)
        (pickle_roundtrip (⟨some "en", [(some "en", 0)]⟩ : AppriseLocale Nat))
        none (some "fr") none).installed ≠ none := by
  decide

/--
Claim C1 (amended): for every AppriseLocale instance whose own default
language has its catalog cached in `_gtobjs` and currently globally
installed (the situation after a successful construction), and for every
body that does not raise IOError or KeyError, entering and exiting the
`lang_at(lang)` scope — whether the body completes normally or fails —
leaves the globally installed catalog equal to what it was before entry,
and the exit raises nothing beyond the body exception.  Without these
provisos the exit can raise KeyError from the restore step (default
language missing from the cache, e.g. after a pickle round-trip) or
RuntimeError (body raising IOError/KeyError makes the generator yield a
second time), and can leave a different catalog installed.
-/
theorem claim_C1_amended {α : Type} (os : OSEnv) (gtLoaded : Bool)
    (T : Option String → Option α) (inst : AppriseLocale α) (c0 : α)
    (installed : Option α) (rawLang : Option String) (bodyErr : Option PyExc)
    (hcache : dlookup inst.lang inst.gtobjs = some c0)
    (hinstalled : installed = some c0)
    (hio : bodyErr ≠ some PyExc.ioError)
    (hkey : bodyErr ≠ some PyExc.keyError) :
    (lang_at os gtLoaded T inst installed rawLang bodyErr).installed = installed ∧
    (lang_at os gtLoaded T inst installed rawLang bodyErr).err = bodyErr := by
  subst hinstalled
  cases gtLoaded with
  | false => exact ⟨rfl, rfl⟩
  | true =>
    exact langAtCore_frame T inst c0 (detect_language os rawLang false) bodyErr
      hcache hio hkey

/--
Claim C1 witness: a normally constructed instance (default "en" cached and
installed) scoped to "fr" with a normally completing body restores the
installed catalog and raises nothing.
-/
theorem claim_C1_witness :
    (lang_at osEmpty true (fun _ => (some 7 : Option Nat))
        ⟨some "en", [(some "en", 5)]⟩ (some 5) (some "fr") none).installed = some 5 ∧
    (lang_at osEmpty true (fun _ => (some 7 : Option Nat))
        ⟨some "en", [(some "en", 5)]⟩ (some 5) (some "fr") none).err = none :=
  claim_C1_amended osEmpty true (fun _ => (some 7 : Option Nat))
    ⟨some "en", [(some "en", 5)]⟩ 5 (some 5) (some "fr") none
    (by decide) rfl (by decide) (by decide)

/--
Claim C3: when the tidied requested language is not yet a key of the
catalog cache (and gettext is loaded), `lang_at` calls
`gettext.translation` with `languages=[self.lang]` — the default language
key, not the requested one — and stores the loaded catalog in the cache
under the requested key.
-/
theorem claim_C3 {α : Type} (os : OSEnv) (T : Option String → Option α)
    (inst : AppriseLocale α) (installed : Option α) (rawLang : Option String)
    (bodyErr : Option PyExc) (c : α)
    (hnot : dlookup (detect_language os rawLang false) inst.gtobjs = none)
    (hT : T inst.lang = some c) :
    (lang_at os true T inst installed rawLang bodyErr).loads = [inst.lang] ∧
    (lang_at os true T inst installed rawLang bodyErr).inst.gtobjs
      = dinsert (detect_language os rawLang false) c inst.gtobjs ∧
    dlookup (detect_language os rawLang false)
      (lang_at os true T inst installed rawLang bodyErr).inst.gtobjs = some c := by
  refine ⟨?_, ?_, ?_⟩ <;> simp [lang_at, langAtCore, hnot, hT, dlookup_dinsert]

/--
Claim C3 witness: an instance with default "en" and empty cache, scoped to
"fr_CA" (tidied to "fr"): the one load call uses key `some "en"` and the
result is cached under key `some "fr"`.
-/
theorem claim_C3_witness :
    (lang_at osEmpty true (fun k => if k = some "en" then some 7 else none)
        (⟨some "en", []⟩ : AppriseLocale Nat) none (some "fr_CA") none).loads
      = [some "en"] ∧
    (lang_at osEmpty true (fun k => if k = some "en" then some 7 else none)
        (⟨some "en", []⟩ : AppriseLocale Nat) none (some "fr_CA") none).inst.gtobjs
      = [(some "fr", 7)] := by
  have h := claim_C3 osEmpty (fun k => if k = some "en" then some 7 else none)
    ⟨some "en", []⟩ none (some "fr_CA") none 7 (by decide) (by decide)
  exact ⟨h.1, h.2.1.trans (by decide)⟩

/--
Claim C6 counterexample: an instance whose default language "en" is not in
the catalog cache (as after a pickle round-trip): requesting "en" — which
normalizes exactly to `self.lang` — makes `lang_at` load and install a
catalog inside the scope, so an install does occur.
-/
theorem claim_C6_counterexample :
    detect_language osEmpty (some "en") false
      = (⟨some "en", []⟩ : AppriseLocale Nat).lang ∧
    (lang_at osEmpty true (fun _ => (some 3 : Option Nat)) ⟨some "en", []⟩ none
        (some "en") none).installs = [3] ∧
    (lang_at osEmpty true (fun _ => (some 3 : Option Nat)) ⟨some "en", []⟩ none
        (some "en") none).installs ≠ [] := by
  decide

/--
Claim C6 (amended): if the language requested in `lang_at` normalizes to
the default language `self.lang` and that language is already a key of the
catalog cache (as after a successful construction), no catalog install is
performed anywhere in the scope; when it is absent from the cache, the
catalog is loaded, cached and installed instead.
-/
theorem claim_C6_amended {α : Type} (os : OSEnv) (gtLoaded : Bool)
    (T : Option String → Option α) (inst : AppriseLocale α) (installed : Option α)
    (rawLang : Option String) (bodyErr : Option PyExc)
    (hnorm : detect_language os rawLang false = inst.lang)
    (hmem : dmem inst.lang inst.gtobjs = true) :
    (lang_at os gtLoaded T inst installed rawLang bodyErr).installs = [] := by
  cases gtLoaded with
  | false => rfl
  | true =>
    obtain ⟨c, hc⟩ : ∃ c, dlookup inst.lang inst.gtobjs = some c := by
      cases h : dlookup inst.lang inst.gtobjs with
      | none =>
        rw [dmem, h] at hmem
        exact absurd hmem (by simp)
      | some c => exact ⟨c, rfl⟩
    have hfin : finallyClause inst.lang inst.lang inst.gtobjs installed
        = (none, installed, []) := by
      simp [finallyClause]
    have hlog : (exitScope YieldPos.inTry inst.lang inst.lang inst.gtobjs installed
        bodyErr).2.2 = [] := by
      cases bodyErr with
      | none => simp [exitScope, hfin]
      | some e => cases e <;> simp [exitScope, hfin]
    show (langAtCore T inst installed (detect_language os rawLang false) bodyErr).installs = []
    rw [hnorm]
    simp [langAtCore, hc, hlog]

/--
Claim C6 witness: default "en" already cached; requesting "en" performs no
install inside the scope.
-/
theorem claim_C6_witness :
    (lang_at osEmpty true (fun _ => (some 3 : Option Nat))
        ⟨some "en", [(some "en", 9)]⟩ none (some "en") none).installs = [] :=
  claim_C6_amended osEmpty true (fun _ => (some 3 : Option Nat))
    ⟨some "en", [(some "en", 9)]⟩ none (some "en") none (by decide) (by decide)

theorem langAtCore_inst {α : Type} (T : Option String → Option α)
    (inst : AppriseLocale α) (installed : Option α) (lang : Option String)
    (bodyErr : Option PyExc) :
    (langAtCore T inst installed lang bodyErr).inst =
      match dlookup lang inst.gtobjs with
      | some _ => inst
      | none =>
        match T inst.lang with
        | some c => ⟨inst.lang, dinsert lang c inst.gtobjs⟩
        | none => inst := by
  unfold langAtCore
  cases dlookup lang inst.gtobjs with
  | some c => by_cases hl : lang = inst.lang <;> simp [hl]
  | none => cases T inst.lang <;> simp

theorem langAt_preserves {α : Type} (os : OSEnv) (gtLoaded : Bool)
    (T : Option String → Option α) (inst : AppriseLocale α) (installed : Option α)
    (rawLang : Option String) (bodyErr : Option PyExc) :
    (lang_at os gtLoaded T inst installed rawLang bodyErr).inst.lang = inst.lang ∧
    ∀ k v, dlookup k inst.gtobjs = some v →
      dlookup k (lang_at os gtLoaded T inst installed rawLang bodyErr).inst.gtobjs
        = some v := by
  cases gtLoaded with
  | false => exact ⟨rfl, fun k v h => h⟩
  | true =>
    have hinst : (lang_at os true T inst installed rawLang bodyErr).inst =
        match dlookup (detect_language os rawLang false) inst.gtobjs with
        | some _ => inst
        | none =>
          match T inst.lang with
          | some c =>
            ⟨inst.lang, dinsert (detect_language os rawLang false) c inst.gtobjs⟩
          | none => inst :=
      langAtCore_inst T inst installed (detect_language os rawLang false) bodyErr
    rw [hinst]
    cases hd : dlookup (detect_language os rawLang false) inst.gtobjs with
    | some c => exact ⟨rfl, fun k v h => h⟩
    | none =>
      cases hT : T inst.lang with
      | some c =>
        constructor
        · rfl
        · intro k v hkv
          have hk : ¬detect_language os rawLang false = k := by
            intro h
            rw [h, hkv] at hd
            exact Option.noConfusion hd
          show dlookup k (dinsert (detect_language os rawLang false) c inst.gtobjs)
            = some v
          rw [dlookup_dinsert]
          simp [hk, hkv]
      | none => exact ⟨rfl, fun k v h => h⟩

/--
Claim C8: any sequence of `lang_at` scopes run on an instance after its
construction leaves the default language code `self.lang` unchanged and
only ever adds entries to the catalog cache `_gtobjs` — every cached entry
survives, unremoved and unreplaced.  (`__getstate__` reads the state
without mutating it; `__setstate__` belongs to pickle reconstruction,
covered by C10.)
-/
theorem claim_C8 {α : Type} (os : OSEnv) (gtLoaded : Bool)
    (T : Option String → Option α) (ops : List (Option String × Option PyExc))
    (inst : AppriseLocale α) (installed : Option α) :
    (run_lang_ats os gtLoaded T ops (inst, installed)).1.lang = inst.lang ∧
    ∀ k v, dlookup k inst.gtobjs = some v →
      dlookup k (run_lang_ats os gtLoaded T ops (inst, installed)).1.gtobjs = some v := by
  induction ops generalizing inst installed with
  | nil => exact ⟨rfl, fun k v h => h⟩
  | cons op ops ih =>
    obtain ⟨raw, berr⟩ := op
    have hstep := langAt_preserves os gtLoaded T inst installed raw berr
    have hrec := ih (lang_at os gtLoaded T inst installed raw berr).inst
      (lang_at os gtLoaded T inst installed raw berr).installed
    constructor
    · rw [run_lang_ats, hrec.1, hstep.1]
    · intro k v hkv
      rw [run_lang_ats]
      exact hrec.2 k v (hstep.2 k v hkv)

/--
Claim C8 witness: one scope on a constructed instance (default "en",
catalog 5 cached) keeps `lang = some "en"` and keeps the cached entry.
-/
theorem claim_C8_witness :
    (run_lang_ats osEmpty true (fun _ => (some 7 : Option Nat)) [(some "fr", none)]
        (⟨some "en", [(some "en", 5)]⟩, some 5)).1.lang = some "en" ∧
    dlookup (some "en")
        (run_lang_ats osEmpty true (fun _ => (some 7 : Option Nat)) [(some "fr", none)]
          (⟨some "en", [(some "en", 5)]⟩, some 5)).1.gtobjs = some 5 :=
  ⟨(claim_C8 osEmpty true (fun _ => (some 7 : Option Nat)) [(some "fr", none)]
      ⟨some "en", [(some "en", 5)]⟩ (some 5)).1,
   (claim_C8 osEmpty true (fun _ => (some 7 : Option Nat)) [(some "fr", none)]
      ⟨some "en", [(some "en", 5)]⟩ (some 5)).2 (some "en") 5 (by decide)⟩
